import Mathlib

/-!
# Verification of back_2_the_jukebox (playback core)

A shallow embedding of the playback core of `back_2_the_jukebox.py`:
the track sequencer (`play_track_by_path`, `play_next_song`,
`update_next_song_label`), the position tracker (`update_progress_bar`,
`on_progress_release`), the end-of-track monitor (`monitor_playback`),
the bounded visual-frame queue, and playlist persistence
(`save_playlists` / `load_playlists`).

Times are modelled as rationals (the Python code uses floats; no claim
here depends on float rounding).  Randomness is modelled by passing the
results of `random.randint` / the selection index of `random.choice`
explicitly.  Engine effects (`pygame.mixer.music.load` succeeding or
raising, `get_busy`, `get_pos`) are inputs to each tick function.
-/

namespace Jukebox

/-- A track as the sequencer sees it: a metadata dictionary, of which the
sequencer reads `path` (identity) and `duration`.  Mirrors the dictionary
built by `get_track_metadata`. -/
structure Track where
  path : String
  title : String
  artist : String
  album : String
  duration : Nat
  deriving Repr, DecidableEq, Inhabited

/-- The mutable playback/session fields of `BackToTheJukebox` that the
playback core touches. -/
structure JukeboxState where
  library : List Track
  current_playlist : Option (List Track)
  current_track_list : Option (List Track)
  current_track_index : Option Nat
  current_track_duration : Nat
  stored_next_song : Option Track
  random_mode : Bool
  play_start_time : Option ℚ
  play_offset : ℚ
  user_dragging : Bool
  deriving Repr, DecidableEq

/-- `random.choice(lst)`: returns an element of `lst` chosen by the random
draw `r`, and raises `IndexError` (modelled as `none`) when `lst` is empty. -/
def randomChoice (r : Nat) (lst : List α) : Option α :=
  lst.get? (r % lst.length)

/-- The list comprehension `[t for i, t in enumerate(lst) if i != idx]`:
all tracks except the one at index `idx`. -/
def excludeIndex (lst : List Track) (idx : Nat) : List Track :=
  (lst.enum.filter (fun p => p.1 ≠ idx)).map (fun p => p.2)

/-- The next-track computation shared by `play_track_by_path` (lines
398-402) and `update_next_song_label` (lines 658-662): sequential mode
takes `lst[(i+1) % len(lst)]`; random mode is `random.choice` over all
tracks except index `i` (which raises, i.e. returns `none`, when that
candidate list is empty). -/
def computeNext (lst : List Track) (i : Nat) (random_mode : Bool) (r : Nat) :
    Option Track :=
  if ¬ random_mode then lst.get? ((i + 1) % lst.length)
  else randomChoice r (excludeIndex lst i)

/-- The index-selection block of `play_next_song` in random mode:
`next_index = randint(0, len-1)`, then, only when `len(lst) > 1`,
redraw while `next_index == cur`.  `rs` is the stream of `randint`
results (each already in `[0, len)`); an exhausted stream is `none`. -/
def pickRandomIndex (rs : List Nat) (n cur : Nat) : Option Nat :=
  match rs with
  | [] => none
  | r :: rs' =>
      if n > 1 then
        if r = cur then pickRandomIndex rs' n cur else some r
      else some r

/-- The index-selection block of `play_next_song` (lines 641-649):
random mode draws indices until one differs from `cur` (when the list has
more than one element); sequential mode takes `cur + 1`, wrapping to `0`
past the end. -/
def advanceTarget (lst : List Track) (cur : Nat) (random_mode : Bool)
    (rs : List Nat) : Option Nat :=
  if random_mode then pickRandomIndex rs lst.length cur
  else
    let next_index := cur + 1
    some (if next_index ≥ lst.length then 0 else next_index)

/-- `self.current_playlist if self.current_playlist is not None else
self.library` (line 393): the list that becomes `current_track_list`. -/
def activeList (s : JukeboxState) : List Track :=
  match s.current_playlist with
  | some p => p
  | none => s.library

/-- `update_next_song_label` (lines 654-665), reduced to its state effect:
with a cached next track it only refreshes the label; with no cache but a
current list and index it recomputes and stores the next track —
`lst[(i+1) % len(lst)]` sequentially (which raises `ZeroDivisionError` on
an empty list, modelled as the `get?` miss), or `random.choice` over all
tracks except the current index (which raises `IndexError` on an empty
candidate list).  `none` models the raise, which leaves
`stored_next_song` unassigned. -/
def update_next_song_label (s : JukeboxState) (r : Nat) :
    Option JukeboxState :=
  match s.stored_next_song with
  | some _ => some s
  | none =>
      match s.current_track_list, s.current_track_index with
      | some ctl, some cur =>
          if ¬ s.random_mode then
            match ctl.get? ((cur + 1) % ctl.length) with
            | some t => some { s with stored_next_song := some t }
            | none => none
          else
            match randomChoice r (excludeIndex ctl cur) with
            | some t => some { s with stored_next_song := some t }
            | none => none
      | _, _ => some s

/-- The tail of `play_track_by_path` after the search loop (lines 404-415):
`pygame.mixer.music.load` / `play` (which may raise, modelled by `loadOk`),
then `play_start_time = time.time()`, `play_offset = 0` and, still inside
the `try`, `self.update_next_song_label()` (line 415), which may itself
raise.  On a raise the surrounding `try` shows
`messagebox.showerror("Playback Error", ...)` and the remaining statements
are skipped.  A single execution of `play_track_by_path` invokes
`random.choice` at most once — in the search loop (which fills the cache)
or here (only when the cache is empty) — so the one draw `r` serves both.
Returns the new state and the error-dialog text, if any. -/
def loadAndStart (s : JukeboxState) (now : ℚ) (loadOk : Bool) (r : Nat) :
    JukeboxState × Option String :=
  if loadOk then
    let s1 := { s with play_start_time := some now, play_offset := 0 }
    match update_next_song_label s1 r with
    | some s2 => (s2, none)
    | none => (s1, some "Playback Error")
  else (s, some "Playback Error")

/-- `play_track_by_path` (lines 391-417).  First reassigns
`current_track_list` to the current playlist (or the library), then scans
it for the first track whose `path` matches; on a match sets the index and
duration and computes `stored_next_song` (where `random.choice` on an empty
candidate list raises, caught by the outer `try` as a "Playback Error"
dialog); with or without a match it then loads and plays `track_path`,
restarts the tracker and ends with `update_next_song_label()` (line 415).
`r` is the `random.choice` draw; `loadOk` models the engine load. -/
def play_track_by_path (s : JukeboxState) (track_path : String) (r : Nat)
    (now : ℚ) (loadOk : Bool) : JukeboxState × Option String :=
  let ctl := activeList s
  let s1 := { s with current_track_list := some ctl }
  match ctl.findIdx? (fun t => t.path = track_path) with
  | some idx =>
      let track := ctl.getD idx default
      let s2 := { s1 with
        current_track_index := some idx,
        current_track_duration := track.duration }
      if ¬ s2.random_mode then
        let next_idx := (idx + 1) % ctl.length
        let s3 := { s2 with stored_next_song := some (ctl.getD next_idx default) }
        loadAndStart s3 now loadOk r
      else
        match randomChoice r (excludeIndex ctl idx) with
        | some nt =>
            loadAndStart { s2 with stored_next_song := some nt } now loadOk r
        | none => (s2, some "Playback Error")
  | none => loadAndStart s1 now loadOk r

/-- `play_next_song` (lines 638-652): returns immediately when no list or
index is current; otherwise selects the next index (`advanceTarget`),
commits it to `current_track_index`, and hands the selected track's path
to `play_track_by_path`.  The result is `none` when the finite modelled
random stream cannot produce the draw the code's `while` loop would make
(an artifact of modelling randomness, not a code path). -/
def play_next_song (s : JukeboxState) (rs : List Nat) (r2 : Nat) (now : ℚ)
    (loadOk : Bool) : Option (JukeboxState × Option String) :=
  match s.current_track_list, s.current_track_index with
  | some ctl, some cur =>
      match advanceTarget ctl cur s.random_mode rs with
      | none => none
      | some next_index =>
          let s1 := { s with current_track_index := some next_index }
          match ctl.get? next_index with
          | some next_track =>
              some (play_track_by_path s1 next_track.path r2 now loadOk)
          | none => none
  | _, _ => some (s, none)

/-- One `monitor_playback` tick (lines 629-636), reduced to its decision:
whether `play_next_song` is invoked.  The guard is
`if self.current_track_duration and self.play_start_time is not None`
(a zero duration is falsy), then
`elapsed >= self.current_track_duration - 1 and not ...get_busy()` on the
reconciled elapsed time.  `engine_pos_ms` is `get_pos()`; `busy` is
`get_busy()`. -/
def monitorFires (s : JukeboxState) (now : ℚ) (engine_pos_ms : ℚ)
    (busy : Bool) : Bool :=
  match s.play_start_time with
  | none => false
  | some start =>
      if s.current_track_duration ≠ 0 then
        let computed_elapsed := (now - start) + s.play_offset
        let get_elapsed := engine_pos_ms / 1000
        let elapsed := max computed_elapsed get_elapsed
        decide (elapsed ≥ (s.current_track_duration : ℚ) - 1) && !busy
      else false

/-- The elapsed-seconds reconciliation of one `update_progress_bar` tick
(lines 469-472): when the engine is busy and `play_start_time` is set,
`max((now - play_start_time) + play_offset, get_pos() / 1000)`; otherwise
the tick displays nothing (`none`). -/
def progressElapsed (s : JukeboxState) (now : ℚ) (engine_pos_ms : ℚ)
    (busy : Bool) : Option ℚ :=
  if busy then
    match s.play_start_time with
    | some start =>
        some (max ((now - start) + s.play_offset) (engine_pos_ms / 1000))
    | none => none
  else none

/-- Result of the seek handler: the new state, whether `"Seek failed"` was
printed to the log, and whether any error dialog was shown. -/
structure SeekResult where
  state : JukeboxState
  logged : Bool
  dialogShown : Bool
  deriving Repr, DecidableEq

/-- `on_progress_release` (lines 481-490): reads the slider position `pos`,
tries `pygame.mixer.music.set_pos(pos)` inside a `try` whose handler only
prints `"Seek failed"`, then unconditionally sets
`play_start_time = time.time() - pos` and `play_offset = 0`.  The handler
contains no `messagebox` call, so `dialogShown` is always `false`. -/
def on_progress_release (s : JukeboxState) (pos now : ℚ) (seekOk : Bool) :
    SeekResult :=
  let s1 := { s with user_dragging := true }
  let logged := !seekOk
  let s2 := { s1 with
    play_start_time := some (now - pos)
    play_offset := 0
    user_dragging := false }
  { state := s2, logged := logged, dialogShown := false }

/-- `add_song_to_playlist` (lines 361-375), reduced to its state effect:
returns the new state, whether `save_playlists` was called, and the
`messagebox.showinfo` text, if any.  With no active playlist, or a path
already present, only a dialog is shown; otherwise the first library track
with that path is appended and saved; a path in neither list falls off the
end of the `for` loop and the method returns with no effect. -/
def add_song_to_playlist (s : JukeboxState) (track_path : String) :
    JukeboxState × Bool × Option String :=
  match s.current_playlist with
  | none => (s, false, some "No active playlist. Please load or create a playlist first.")
  | some pl =>
      if pl.any (fun track => track.path = track_path) then
        (s, false, some "Song is already in the current playlist.")
      else
        match s.library.find? (fun track => track.path = track_path) with
        | some track =>
            ({ s with current_playlist := some (pl ++ [track]) }, true,
             some "Song added to current playlist.")
        | none => (s, false, none)

/-- `queue.Queue(maxsize=2).put(frame, timeout=0.01)` with an idle
consumer, as used by `compute_plasma` (lines 699-703): when the queue is
below capacity the frame is appended; when full, the timed `put` raises
`queue.Full`, which the producer catches and ignores (the frame is
dropped).  Returns the new buffer and whether the frame was dropped. -/
def tryPush (cap : Nat) (buf : List α) (frame : α) : List α × Bool :=
  if buf.length < cap then (buf ++ [frame], false) else (buf, true)

/-- `plasma_queue.get_nowait()` in `update_canvas` (lines 708-713): pops
the oldest frame when one is available, else raises `queue.Empty`, which
the consumer catches and ignores. -/
def tryPop (buf : List α) : List α × Option α :=
  match buf with
  | [] => ([], none)
  | frame :: rest => (rest, some frame)

/-- The capacity of the plasma frame queue, `queue.Queue(maxsize=2)`
(line 681). -/
def plasmaQueueCapacity : Nat := 2

/-- A JSON value as `json.dump` / `json.load` handle it, plus `obj` for
in-memory Python objects (such as the PIL album-art image) that are not
JSON-serializable. -/
inductive JVal where
  | str (v : String)
  | num (v : Int)
  | null
  | obj (tag : Nat)
  deriving Repr, DecidableEq

/-- A track as a Python dictionary: an ordered association list from field
name to value, as built by `get_track_metadata`. -/
def TrackDict : Type := List (String × JVal)

/-- `track.get(key)`: the value at `key`, or Python `None` (JSON `null`)
when the key is absent. -/
def dictGet (t : TrackDict) (key : String) : JVal :=
  match List.lookup key t with
  | some v => v
  | none => JVal.null

/-- The per-track dictionary that `save_playlists` (lines 69-75) builds:
only `path`, `title`, `artist`, `album` and `duration`, each read with
`track.get`. -/
def serializeTrack (track : TrackDict) : TrackDict :=
  [("path", dictGet track "path"),
   ("title", dictGet track "title"),
   ("artist", dictGet track "artist"),
   ("album", dictGet track "album"),
   ("duration", dictGet track "duration")]

/-- `save_playlists` (lines 62-79): rebuilds the whole store with
`serializeTrack` applied to every track and dumps it to disk.  The model
is the structure written to `playlists.json`. -/
def save_playlists (plist : List (String × List TrackDict)) :
    List (String × List TrackDict) :=
  plist.map (fun entry => (entry.1, entry.2.map serializeTrack))

/-- `load_playlists` (lines 51-60): `json.load` of the file written by
`save_playlists`; a JSON round-trip of null/number/string data is the
identity on this model. -/
def load_playlists (saved : List (String × List TrackDict)) :
    List (String × List TrackDict) :=
  saved

/-! ## Concrete fixtures -/

/-- A track with a known 180-second duration. -/
def trackA : Track :=
  { path := "a.mp3", title := "A", artist := "X", album := "M", duration := 180 }

/-- A track with a known 200-second duration. -/
def trackB : Track :=
  { path := "b.mp3", title := "B", artist := "X", album := "M", duration := 200 }

/-- A third track. -/
def trackC : Track :=
  { path := "c.mp3", title := "C", artist := "Y", album := "N", duration := 150 }

/-- The session state right after `BackToTheJukebox.__init__`: nothing
loaded or playing, shuffle off (here with a three-track library). -/
def baseState : JukeboxState :=
  { library := [trackA, trackB, trackC]
    current_playlist := none
    current_track_list := none
    current_track_index := none
    current_track_duration := 0
    stored_next_song := none
    random_mode := false
    play_start_time := none
    play_offset := 0
    user_dragging := false }

/-! ## Helper lemmas -/

/-- In a list whose track paths are pairwise distinct, the linear search of
`play_track_by_path` finds exactly the index the path came from. -/
theorem findIdx?_path_of_get? (l : List Track) (j : Nat) (t : Track)
    (hget : l.get? j = some t) (hnd : (l.map Track.path).Nodup) :
    l.findIdx? (fun tr => tr.path = t.path) = some j := by
  induction l generalizing j with
  | nil => simp at hget
  | cons a l ih =>
      rw [List.map_cons, List.nodup_cons] at hnd
      cases j with
      | zero =>
          simp only [List.get?] at hget
          cases hget
          simp [List.findIdx?_cons]
      | succ j =>
          simp only [List.get?] at hget
          have hmem : t ∈ l := List.get?_mem hget
          have hne : a.path ≠ t.path := by
            intro h
            exact hnd.1 (h ▸ List.mem_map_of_mem Track.path hmem)
          rw [List.findIdx?_cons]
          simp only [decide_eq_true_eq]
          rw [if_neg hne, List.findIdx?_succ, ih j hget hnd.2]
          rfl

/-- `advanceTarget` in sequential mode is `(cur + 1) % length`. -/
theorem advanceTarget_sequential (l : List Track) (cur : Nat) (rs : List Nat)
    (hcur : cur < l.length) :
    advanceTarget l cur false rs = some ((cur + 1) % l.length) := by
  simp only [advanceTarget, Bool.false_eq_true, if_false]
  congr 1
  rcases Nat.lt_or_ge (cur + 1) l.length with h | h
  · rw [if_neg (by omega), Nat.mod_eq_of_lt h]
  · have : cur + 1 = l.length := by omega
    rw [if_pos (by omega), this, Nat.mod_self]

/-- `play_track_by_path` on a path found at index `j` of the active list,
with shuffle off and a successful engine load: the full resulting state. -/
theorem play_track_by_path_found_seq (s : JukeboxState) (r : Nat) (now : ℚ)
    (l : List Track) (j : Nat) (t : Track)
    (hact : activeList s = l)
    (hfind : l.findIdx? (fun tr => tr.path = t.path) = some j)
    (hmode : s.random_mode = false) :
    play_track_by_path s t.path r now true
      = ({ s with
            current_track_list := some l
            current_track_index := some j
            current_track_duration := (l.getD j default).duration
            stored_next_song := some (l.getD ((j + 1) % l.length) default)
            play_start_time := some now
            play_offset := 0 }, none) := by
  unfold play_track_by_path
  rw [hact]
  simp [hfind, hmode, loadAndStart, update_next_song_label]

/-- A `update_next_song_label` call that returns normally touches only
`stored_next_song`: every other session field is preserved. -/
theorem update_next_song_label_preserves (s : JukeboxState) (r : Nat)
    (s' : JukeboxState) (h : update_next_song_label s r = some s') :
    s'.library = s.library
    ∧ s'.current_playlist = s.current_playlist
    ∧ s'.current_track_list = s.current_track_list
    ∧ s'.current_track_index = s.current_track_index
    ∧ s'.current_track_duration = s.current_track_duration
    ∧ s'.random_mode = s.random_mode
    ∧ s'.play_start_time = s.play_start_time
    ∧ s'.play_offset = s.play_offset := by
  obtain ⟨lib, cpl, ctl, cti, dur, sns, rm, pst, po, ud⟩ := s
  unfold update_next_song_label at h
  dsimp only at h
  cases sns with
  | some t =>
      injection h with h2
      subst h2
      exact ⟨rfl, rfl, rfl, rfl, rfl, rfl, rfl, rfl⟩
  | none =>
      dsimp only at h
      cases ctl with
      | none =>
          injection h with h2
          subst h2
          exact ⟨rfl, rfl, rfl, rfl, rfl, rfl, rfl, rfl⟩
      | some l =>
          cases cti with
          | none =>
              injection h with h2
              subst h2
              exact ⟨rfl, rfl, rfl, rfl, rfl, rfl, rfl, rfl⟩
          | some cur =>
              dsimp only at h
              cases rm with
              | false =>
                  cases hg : l.get? ((cur + 1) % l.length) with
                  | none =>
                      rw [hg] at h
                      exact Option.noConfusion h
                  | some t =>
                      rw [hg] at h
                      dsimp only at h
                      injection h with h2
                      subst h2
                      exact ⟨rfl, rfl, rfl, rfl, rfl, rfl, rfl, rfl⟩
              | true =>
                  cases hg : randomChoice r (excludeIndex l cur) with
                  | none =>
                      rw [hg] at h
                      exact Option.noConfusion h
                  | some t =>
                      rw [hg] at h
                      dsimp only at h
                      injection h with h2
                      subst h2
                      exact ⟨rfl, rfl, rfl, rfl, rfl, rfl, rfl, rfl⟩

/-- Field-level behaviour of `loadAndStart`: loop-committed fields pass
through untouched; a failed load leaves cache and tracker unchanged and
surfaces the dialog; a successful load restarts the tracker, and when a
next track is already cached the trailing label update keeps it with no
error. -/
theorem loadAndStart_fields (s : JukeboxState) (now : ℚ) (ok : Bool)
    (r : Nat) :
    (loadAndStart s now ok r).1.current_track_list = s.current_track_list
    ∧ (loadAndStart s now ok r).1.current_track_index
        = s.current_track_index
    ∧ (loadAndStart s now ok r).1.current_track_duration
        = s.current_track_duration
    ∧ (ok = false →
        (loadAndStart s now ok r).1.stored_next_song = s.stored_next_song
        ∧ (loadAndStart s now ok r).1.play_start_time = s.play_start_time
        ∧ (loadAndStart s now ok r).1.play_offset = s.play_offset
        ∧ (loadAndStart s now ok r).2 = some "Playback Error")
    ∧ (ok = true →
        (loadAndStart s now ok r).1.play_start_time = some now
        ∧ (loadAndStart s now ok r).1.play_offset = 0)
    ∧ (ok = true → ∀ t, s.stored_next_song = some t →
        (loadAndStart s now ok r).1.stored_next_song = some t
        ∧ (loadAndStart s now ok r).2 = none) := by
  cases ok with
  | false =>
      refine ⟨rfl, rfl, rfl, fun _ => ⟨rfl, rfl, rfl, rfl⟩, ?_, ?_⟩
      · intro h
        exact absurd h (by simp)
      · intro h
        exact absurd h (by simp)
  | true =>
      unfold loadAndStart
      dsimp only
      cases hu : update_next_song_label
          { s with play_start_time := some now, play_offset := 0 } r with
      | none =>
          refine ⟨rfl, rfl, rfl, ?_, fun _ => ⟨rfl, rfl⟩, ?_⟩
          · intro h
            exact absurd h (by simp)
          · intro _ t ht
            exfalso
            unfold update_next_song_label at hu
            dsimp only at hu
            rw [ht] at hu
            exact Option.noConfusion hu
      | some s2 =>
          have hp := update_next_song_label_preserves _ r s2 hu
          refine ⟨hp.2.2.1, hp.2.2.2.1, hp.2.2.2.2.1, ?_,
            fun _ => ⟨hp.2.2.2.2.2.2.1, hp.2.2.2.2.2.2.2⟩, ?_⟩
          · intro h
            exact absurd h (by simp)
          · intro _ t ht
            unfold update_next_song_label at hu
            dsimp only at hu
            rw [ht] at hu
            dsimp only at hu
            injection hu with h2
            subst h2
            exact ⟨rfl, rfl⟩

/-! ## C4: compute_next on a singleton list -/

/-- C4 counterexample: on a singleton active list with the sole track
current and shuffle ON, `compute_next` does not return the sole track — the
exclusion list is empty and `random.choice` raises (modelled as `none`). -/
theorem computeNext_singleton_shuffle_raises :
    computeNext [trackA] 0 true 0 = none
    ∧ computeNext [trackA] 0 true 0 ≠ some trackA := by
  exact ⟨rfl, by decide⟩

/-- C4 (amended): on a singleton active list with the sole track current,
`compute_next` returns the sole track when shuffle is off; when shuffle is
on it fails (`random.choice` on the empty exclusion list raises
`IndexError`) instead of returning the sole track. -/
theorem computeNext_singleton (t : Track) (r : Nat) :
    computeNext [t] 0 false r = some t ∧ computeNext [t] 0 true r = none :=
  ⟨by simp [computeNext], rfl⟩

/-! ## C5: elapsed-time reconciliation -/

/-- C5: while the engine is busy and a start time is recorded, the
reported elapsed seconds equal
`max((now - play_start_time) + play_offset, get_pos() / 1000)`: the
wall-clock estimate is a lower bound of the result, and the engine's
reported position is taken whenever it is at least the wall-clock
estimate. -/
theorem progressElapsed_reconciles (s : JukeboxState) (now ms start : ℚ)
    (hstart : s.play_start_time = some start) :
    progressElapsed s now ms true
        = some (max ((now - start) + s.play_offset) (ms / 1000))
    ∧ (now - start) + s.play_offset ≤ (progressElapsed s now ms true).getD 0
    ∧ ((now - start) + s.play_offset ≤ ms / 1000 →
        progressElapsed s now ms true = some (ms / 1000))
    ∧ (ms / 1000 ≤ (now - start) + s.play_offset →
        progressElapsed s now ms true = some ((now - start) + s.play_offset)) := by
  have h : progressElapsed s now ms true
      = some (max ((now - start) + s.play_offset) (ms / 1000)) := by
    simp [progressElapsed, hstart]
  refine ⟨h, ?_, ?_, ?_⟩
  · rw [h, Option.getD_some]
    exact le_max_left _ _
  · intro hle
    rw [h, max_eq_right hle]
  · intro hle
    rw [h, max_eq_left hle]

/-- A session two seconds into a track, with one second of seek offset. -/
def c5State : JukeboxState :=
  { baseState with play_start_time := some 2, play_offset := 1 }

/-- C5 witness: at `now = 10` with the engine reporting 9500 ms, the
reconciled elapsed time is the larger of the two estimates. -/
theorem progressElapsed_reconciles_witness :
    progressElapsed c5State 10 9500 true
      = some (max ((10 - 2) + c5State.play_offset) (9500 / 1000)) :=
  (progressElapsed_reconciles c5State 10 9500 2 rfl).1

/-! ## C6: seek-failure handling -/

/-- A session that had been playing from wall time 10 with 3 seconds of
accumulated seek offset. -/
def c6State : JukeboxState :=
  { baseState with play_start_time := some 10, play_offset := 3 }

/-- The seek handler run at wall time 100 for slider position 50, with the
engine's `set_pos` raising. -/
def c6Result : SeekResult := on_progress_release c6State 50 100 false

/-- C6 counterexample: when the engine's seek raises, `on_progress_release`
shows no dialog (the error is only printed) and still rewrites the
tracker state: `play_start_time` becomes `now - pos` and `play_offset`
becomes `0`, both different from their prior values. -/
theorem seek_failure_no_dialog_state_changed :
    c6Result.dialogShown = false
    ∧ c6Result.logged = true
    ∧ c6Result.state.play_start_time = some 50
    ∧ c6State.play_start_time = some 10
    ∧ c6Result.state.play_start_time ≠ c6State.play_start_time
    ∧ c6Result.state.play_offset ≠ c6State.play_offset := by
  refine ⟨rfl, rfl, ?_, rfl, ?_, ?_⟩
  · show some ((100 : ℚ) - 50) = some 50
    norm_num
  · show some ((100 : ℚ) - 50) ≠ some 10
    simp
    norm_num
  · show (0 : ℚ) ≠ 3
    norm_num

/-- C6 (amended): a failing engine seek is caught at the call site and not
propagated, but it is surfaced only as a printed log line — never a
dialog — and the handler unconditionally resets the tracker to the seek
target: `play_start_time := now - pos` and `play_offset := 0`, whether or
not the engine seek succeeded.  The sequencer fields are untouched. -/
theorem on_progress_release_spec (s : JukeboxState) (pos now : ℚ)
    (seekOk : Bool) :
    (on_progress_release s pos now seekOk).dialogShown = false
    ∧ (on_progress_release s pos now seekOk).logged = (!seekOk)
    ∧ (on_progress_release s pos now seekOk).state.play_start_time
        = some (now - pos)
    ∧ (on_progress_release s pos now seekOk).state.play_offset = 0
    ∧ (on_progress_release s pos now seekOk).state.current_track_list
        = s.current_track_list
    ∧ (on_progress_release s pos now seekOk).state.current_track_index
        = s.current_track_index
    ∧ (on_progress_release s pos now seekOk).state.stored_next_song
        = s.stored_next_song :=
  ⟨rfl, rfl, rfl, rfl, rfl, rfl, rfl⟩

/-! ## C8: bounded visual-frame channel -/

/-- C8: the plasma frame queue never exceeds its capacity of 2: a push
onto a buffer within capacity keeps it within capacity, and pushing three
frames in quick succession with the consumer idle buffers the first two
and drops the third — the producer's `put` returns (raising `queue.Full`,
caught and ignored) and neither queued frame is evicted. -/
theorem plasma_queue_capacity_two (buf : List Nat) (f f1 f2 f3 : Nat)
    (hbuf : buf.length ≤ plasmaQueueCapacity) :
    (tryPush plasmaQueueCapacity buf f).1.length ≤ plasmaQueueCapacity
    ∧ tryPush plasmaQueueCapacity [] f1 = ([f1], false)
    ∧ tryPush plasmaQueueCapacity [f1] f2 = ([f1, f2], false)
    ∧ tryPush plasmaQueueCapacity [f1, f2] f3 = ([f1, f2], true) := by
  refine ⟨?_, rfl, rfl, rfl⟩
  by_cases h : buf.length < plasmaQueueCapacity
  · simp only [tryPush, if_pos h, List.length_append, List.length_cons,
      List.length_nil]
    omega
  · simp only [tryPush, if_neg h]
    exact hbuf

/-- C8 witness: the three-push scenario at concrete frames, and a push
onto a one-element buffer stays within capacity. -/
theorem plasma_queue_capacity_two_witness :
    (tryPush plasmaQueueCapacity [9] 0).1.length ≤ plasmaQueueCapacity
    ∧ tryPush plasmaQueueCapacity [1, 2] 3 = ([1, 2], true) := by
  have h := plasma_queue_capacity_two [9] 0 1 2 3 (by decide)
  exact ⟨h.1, h.2.2.2⟩

/-! ## C10: adding an unknown path to the active playlist -/

/-- C10: with an active playlist, adding a path that is neither in the
playlist nor in the library is a silent no-op: the state is unchanged,
`save_playlists` is not called, and no dialog text is produced. -/
theorem add_song_unknown_path_noop (s : JukeboxState) (pl : List Track)
    (p : String)
    (hpl : s.current_playlist = some pl)
    (hnotpl : pl.any (fun track => track.path = p) = false)
    (hnotlib : s.library.find? (fun track => track.path = p) = none) :
    add_song_to_playlist s p = (s, false, none) := by
  simp [add_song_to_playlist, hpl, hnotpl, hnotlib]

/-- A session with an active single-track playlist over the three-track
library. -/
def c10State : JukeboxState :=
  { baseState with current_playlist := some [trackA] }

/-- C10 witness: adding a path in neither the playlist nor the library
changes nothing, saves nothing and reports nothing. -/
theorem add_song_unknown_path_noop_witness :
    add_song_to_playlist c10State "zzz.mp3" = (c10State, false, none) :=
  add_song_unknown_path_noop c10State [trackA] "zzz.mp3" rfl (by decide)
    (by decide)

/-! ## C1: end-of-track monitor guard -/

/-- C1: a `monitor_playback` tick invokes the auto-advance exactly when a
start time is recorded, the track's duration is nonzero (a zero/unknown
duration makes the leading guard falsy), the reconciled elapsed time has
reached `duration - 1`, and the engine reports not busy; in particular a
track with `duration_seconds = 0` never triggers an auto-advance. -/
theorem monitor_fires_iff (s : JukeboxState) (now ms : ℚ) (busy : Bool) :
    (monitorFires s now ms busy = true ↔
      s.current_track_duration ≠ 0 ∧ busy = false ∧
        ∃ start, s.play_start_time = some start ∧
          (s.current_track_duration : ℚ) - 1
            ≤ max ((now - start) + s.play_offset) (ms / 1000))
    ∧ (s.current_track_duration = 0 → monitorFires s now ms busy = false) := by
  constructor
  · unfold monitorFires
    cases h : s.play_start_time with
    | none => simp [h]
    | some start =>
        by_cases hd : s.current_track_duration = 0
        · simp [h, hd]
        · simp only [hd, if_true, ne_eq, not_false_iff, true_and, if_neg,
            Bool.and_eq_true, decide_eq_true_eq, Bool.not_eq_true', h,
            Option.some.injEq, if_pos]
          constructor
          · rintro ⟨h1, h2⟩
            exact ⟨h2, start, rfl, h1⟩
          · rintro ⟨h2, start', hstart', h1⟩
            cases hstart'
            exact ⟨h1, h2⟩
  · intro h0
    unfold monitorFires
    cases h : s.play_start_time with
    | none => rfl
    | some start => simp [h0]

/-- A session playing a 3-second track that started at wall time 0. -/
def c1State : JukeboxState :=
  { baseState with current_track_duration := 3, play_start_time := some 0 }

/-- C1 witness: the guard fires at `now = 10` on the idle engine for the
(nonzero-duration) 3-second track, and the same inputs with a
zero/unknown duration never fire. -/
theorem monitor_fires_iff_witness :
    monitorFires c1State 10 0 false = true
    ∧ monitorFires { c1State with current_track_duration := 0 } 10 0 false
        = false := by
  constructor
  · exact (monitor_fires_iff c1State 10 0 false).1.mpr
      ⟨by decide, rfl, 0, rfl, by norm_num [c1State, baseState]⟩
  · exact (monitor_fires_iff { c1State with current_track_duration := 0 }
      10 0 false).2 rfl

/-! ## C9: playlist persistence round-trip -/

/-- C9: saving the playlist store and reloading the persisted file keeps,
for each track, exactly the fields `path`, `title`, `artist`, `album` and
`duration` with their original values; `album_art` (and any other
transient field) is absent from the persisted track. -/
theorem save_load_roundtrip (store : List (String × List TrackDict))
    (t : TrackDict) (p ti ar al du : JVal)
    (hp : List.lookup "path" t = some p)
    (hti : List.lookup "title" t = some ti)
    (har : List.lookup "artist" t = some ar)
    (hal : List.lookup "album" t = some al)
    (hdu : List.lookup "duration" t = some du) :
    load_playlists (save_playlists store)
      = store.map (fun e => (e.1, e.2.map serializeTrack))
    ∧ (serializeTrack t).map Prod.fst
        = ["path", "title", "artist", "album", "duration"]
    ∧ List.lookup "path" (serializeTrack t) = some p
    ∧ List.lookup "title" (serializeTrack t) = some ti
    ∧ List.lookup "artist" (serializeTrack t) = some ar
    ∧ List.lookup "album" (serializeTrack t) = some al
    ∧ List.lookup "duration" (serializeTrack t) = some du
    ∧ List.lookup "album_art" (serializeTrack t) = none := by
  refine ⟨rfl, rfl, ?_, ?_, ?_, ?_, ?_, rfl⟩
  · show some (dictGet t "path") = some p
    simp [dictGet, hp]
  · show some (dictGet t "title") = some ti
    simp [dictGet, hti]
  · show some (dictGet t "artist") = some ar
    simp [dictGet, har]
  · show some (dictGet t "album") = some al
    simp [dictGet, hal]
  · show some (dictGet t "duration") = some du
    simp [dictGet, hdu]

/-- A scanned track as an in-memory dictionary, including the transient
`album_art` object. -/
def rawTrackA : TrackDict :=
  [("path", JVal.str "a.mp3"), ("title", JVal.str "A"),
   ("artist", JVal.str "X"), ("album", JVal.str "M"),
   ("album_art", JVal.obj 0), ("duration", JVal.num 180)]

/-- A playlist store holding one playlist "Road Trip" with that track. -/
def roadTripStore : List (String × List TrackDict) :=
  [("Road Trip", [rawTrackA])]

/-- C9 witness: saving and reloading the "Road Trip" store keeps the
track's `path` value and drops its `album_art` field. -/
theorem save_load_roundtrip_witness :
    load_playlists (save_playlists roadTripStore)
      = [("Road Trip", [serializeTrack rawTrackA])]
    ∧ List.lookup "album_art" (serializeTrack rawTrackA) = none
    ∧ List.lookup "path" (serializeTrack rawTrackA)
        = some (JVal.str "a.mp3") := by
  have h := save_load_roundtrip roadTripStore rawTrackA
    (JVal.str "a.mp3") (JVal.str "A") (JVal.str "X") (JVal.str "M")
    (JVal.num 180) rfl rfl rfl rfl rfl
  exact ⟨h.1, h.2.2.2.2.2.2.2, h.2.2.1⟩

/-! ## Sequencer helper lemmas -/

/-- With shuffle off, `play_next_song` commits the index `(i + 1) % N`:
the resulting session's current index is exactly the sequential successor
(wrapping at the end of the list). -/
theorem play_next_song_sequential (s : JukeboxState) (l : List Track)
    (i r2 : Nat) (rs : List Nat) (now : ℚ)
    (hmode : s.random_mode = false)
    (hctl : s.current_track_list = some l)
    (hcur : s.current_track_index = some i)
    (hi : i < l.length)
    (hact : activeList s = l)
    (hnd : (l.map Track.path).Nodup) :
    (play_next_song s rs r2 now true).map (fun res => res.1.current_track_index)
      = some (some ((i + 1) % l.length)) := by
  have hjlt : (i + 1) % l.length < l.length := Nat.mod_lt _ (by omega)
  obtain ⟨t, hget⟩ : ∃ t, l.get? ((i + 1) % l.length) = some t := by
    rw [List.get?_eq_get hjlt]
    exact ⟨_, rfl⟩
  have hfind := findIdx?_path_of_get? l ((i + 1) % l.length) t hget hnd
  obtain ⟨lib, cpl, ctl, cti, dur, sns, rm, pst, po, ud⟩ := s
  dsimp only at hmode hctl hcur hact
  subst hmode hctl hcur
  have hptp := play_track_by_path_found_seq
    ⟨lib, cpl, some l, some ((i + 1) % l.length), dur, sns, false, pst, po, ud⟩
    r2 now l ((i + 1) % l.length) t hact hfind rfl
  unfold play_next_song
  dsimp only
  rw [advanceTarget_sequential l i rs hi]
  dsimp only
  rw [hget]
  dsimp only
  rw [hptp]
  rfl

/-- The committed index of `play_track_by_path`: the first index of the
active list whose path matches, and the prior index when no entry
matches.  In particular it never depends on `stored_next_song`. -/
theorem play_track_by_path_index (s : JukeboxState) (p : String) (r : Nat)
    (now : ℚ) (ok : Bool) :
    (play_track_by_path s p r now ok).1.current_track_index
      = match (activeList s).findIdx? (fun tr => tr.path = p) with
        | some idx => some idx
        | none => s.current_track_index := by
  obtain ⟨lib, cpl, ctl, cti, dur, sns, rm, pst, po, ud⟩ := s
  unfold play_track_by_path
  dsimp only
  cases hf : (activeList ⟨lib, cpl, ctl, cti, dur, sns, rm, pst, po, ud⟩).findIdx?
      (fun tr => tr.path = p) with
  | none =>
      rw [(loadAndStart_fields _ now ok r).2.1]
  | some idx =>
      dsimp only
      cases rm with
      | false => cases ok <;> rfl
      | true =>
          cases hrc : randomChoice r
              (excludeIndex
                (activeList ⟨lib, cpl, ctl, cti, dur, sns, true, pst, po, ud⟩)
                idx) with
          | none => rfl
          | some nt => cases ok <;> rfl

/-- The index committed by `play_next_song` does not depend on the cached
`stored_next_song`: the code recomputes the next index from scratch. -/
theorem play_next_song_index_cache (s : JukeboxState) (c : Option Track)
    (rs : List Nat) (r2 : Nat) (now : ℚ) (ok : Bool) :
    (play_next_song { s with stored_next_song := c } rs r2 now ok).map
        (fun res => res.1.current_track_index)
      = (play_next_song s rs r2 now ok).map
        (fun res => res.1.current_track_index) := by
  obtain ⟨lib, cpl, ctl, cti, dur, sns, rm, pst, po, ud⟩ := s
  unfold play_next_song
  dsimp only
  cases ctl with
  | none => rfl
  | some l =>
      cases cti with
      | none => rfl
      | some cur =>
          dsimp only
          cases hadv : advanceTarget l cur rm rs with
          | none => rfl
          | some ni =>
              dsimp only
              cases hget : l.get? ni with
              | none => rfl
              | some nt =>
                  dsimp only [Option.map]
                  rw [play_track_by_path_index, play_track_by_path_index]
                  dsimp only [activeList]

/-! ## C7: sequential advance is (i+1) mod N -/

/-- C7: with shuffle off, on an active list of length ≥ 2 with current
index `i` and pairwise-distinct paths, both the lookahead `compute_next`
and the committed advance pick the track at index `(i + 1) mod N`,
wrapping from the last index back to 0. -/
theorem sequential_next_wraps (s : JukeboxState) (l : List Track)
    (i r r2 : Nat) (rs : List Nat) (now : ℚ)
    (_hlen : 2 ≤ l.length) (hi : i < l.length)
    (hmode : s.random_mode = false)
    (hctl : s.current_track_list = some l)
    (hcur : s.current_track_index = some i)
    (hact : activeList s = l)
    (hnd : (l.map Track.path).Nodup) :
    computeNext l i false r = l.get? ((i + 1) % l.length)
    ∧ advanceTarget l i false rs = some ((i + 1) % l.length)
    ∧ (play_next_song s rs r2 now true).map
        (fun res => res.1.current_track_index)
      = some (some ((i + 1) % l.length)) :=
  ⟨rfl, advanceTarget_sequential l i rs hi,
    play_next_song_sequential s l i r2 rs now hmode hctl hcur hi hact hnd⟩

/-- A session playing the last track (index 1) of a two-track playlist,
shuffle off. -/
def c7State : JukeboxState :=
  { baseState with
      current_playlist := some [trackA, trackB]
      current_track_list := some [trackA, trackB]
      current_track_index := some 1
      current_track_duration := 200 }

/-- C7 witness: from the last index of a two-track list, the lookahead is
the track at index 0 and the committed advance wraps to index 0. -/
theorem sequential_next_wraps_witness :
    computeNext [trackA, trackB] 1 false 0 = some trackA
    ∧ (play_next_song c7State [] 0 9 true).map
        (fun res => res.1.current_track_index) = some (some 0) := by
  have h := sequential_next_wraps c7State [trackA, trackB] 1 0 0 [] 9
    (by decide) (by decide) rfl rfl rfl rfl (by decide)
  exact ⟨h.1.trans (by decide), h.2.2.trans (by decide)⟩

/-! ## C2: advance vs. the cached next-track -/

/-- A session on the three-track library, shuffle ON, current index 0,
with `trackB` cached as the next track. -/
def c2State : JukeboxState :=
  { baseState with
      current_track_list := some [trackA, trackB, trackC]
      current_track_index := some 0
      current_track_duration := 180
      stored_next_song := some trackB
      random_mode := true }

/-- `play_next_song` on that session when the random draw picks index 2. -/
def c2Result : Option (JukeboxState × Option String) :=
  play_next_song c2State [2] 0 7 true

/-- C2 counterexample: with shuffle on and `trackB` cached as next,
the automatic advance commits index 2 — `trackC` — not the cached
`trackB`: the transition does not equal the cached `compute_next`
value. -/
theorem advance_ignores_cached_next :
    c2State.stored_next_song = some trackB
    ∧ c2Result.map (fun res => res.1.current_track_index) = some (some 2)
    ∧ [trackA, trackB, trackC].get? 2 = some trackC
    ∧ trackC ≠ trackB := by
  refine ⟨rfl, ?_, rfl, by decide⟩
  decide

/-- C2 (amended): `play_next_song` never consumes the cached next-track —
the committed index is the same whatever `stored_next_song` holds — and it
recomputes the transition: with shuffle off it commits index
`(i + 1) mod N`, which is the track `compute_next` yields, so the two
coincide there; with shuffle on the committed track is a fresh random draw
that can differ from the cached value. -/
theorem advance_recomputes_next (s : JukeboxState) (c : Option Track)
    (rs : List Nat) (r2 : Nat) (now : ℚ) (ok : Bool) (l : List Track)
    (i : Nat) :
    ((play_next_song { s with stored_next_song := c } rs r2 now ok).map
        (fun res => res.1.current_track_index)
      = (play_next_song s rs r2 now ok).map
        (fun res => res.1.current_track_index))
    ∧ (s.random_mode = false → s.current_track_list = some l →
        s.current_track_index = some i → i < l.length → activeList s = l →
        (l.map Track.path).Nodup → ok = true →
        (play_next_song s rs r2 now ok).map
            (fun res => res.1.current_track_index)
          = some (some ((i + 1) % l.length))
        ∧ computeNext l i false r2 = l.get? ((i + 1) % l.length)) := by
  refine ⟨play_next_song_index_cache s c rs r2 now ok, ?_⟩
  rintro hmode hctl hcur hi hact hnd rfl
  exact ⟨play_next_song_sequential s l i r2 rs now hmode hctl hcur hi hact hnd,
    rfl⟩

/-- C2 witness: on the two-track sequential session, the committed index
is the same with or without a (stale) cached next-track, and equals the
sequential successor index 0. -/
theorem advance_recomputes_next_witness :
    (play_next_song { c7State with stored_next_song := some trackB }
        [] 0 9 true).map (fun res => res.1.current_track_index)
      = (play_next_song c7State [] 0 9 true).map
        (fun res => res.1.current_track_index)
    ∧ (play_next_song c7State [] 0 9 true).map
        (fun res => res.1.current_track_index) = some (some 0) := by
  have h := advance_recomputes_next c7State (some trackB) [] 0 9 true
    [trackA, trackB] 1
  refine ⟨h.1, ?_⟩
  have h2 := (h.2 rfl rfl rfl (by decide) rfl (by decide) rfl).1
  exact h2.trans (by decide)

/-! ## C3: selecting a path absent from the active list -/

/-- A session that had been playing from the full library, after which a
one-track playlist `[trackB]` was loaded (loading a playlist does not
touch `current_track_list` until the next play). -/
def c3State : JukeboxState :=
  { baseState with
      current_playlist := some [trackB]
      current_track_list := some [trackA, trackB]
      current_track_index := some 0
      current_track_duration := 180
      stored_next_song := some trackB }

/-- Double-clicking library track `a.mp3`, which is not in the active
playlist, with the engine load succeeding. -/
def c3Result : JukeboxState × Option String :=
  play_track_by_path c3State "a.mp3" 0 5 true

/-- C3 counterexample: selecting a path absent from the active list does
not fail with NotFound — no error surfaces at all — and session state is
mutated: `current_track_list` is reassigned from the library to the
playlist, and the position tracker is restarted. -/
theorem select_missing_path_mutates_state :
    c3Result.2 = none
    ∧ c3State.current_track_list = some [trackA, trackB]
    ∧ c3Result.1.current_track_list = some [trackB]
    ∧ c3Result.1.current_track_list ≠ c3State.current_track_list
    ∧ c3Result.1.play_start_time = some 5
    ∧ c3State.play_start_time = none := by
  refine ⟨rfl, rfl, rfl, ?_, rfl, rfl⟩
  decide

/-- C3 (amended): for a path absent from the active list no NotFound is
raised; `play_track_by_path` reassigns `current_track_list` to the current
playlist (or library) and attempts to load and play the path anyway.  The
current index and track duration are left unchanged.  On a failed load a
"Playback Error" dialog is shown with the tracker and cached next-track
untouched.  On a successful load the tracker restarts
(`play_start_time := now`, `play_offset := 0`) and the trailing
`update_next_song_label()` runs: an already-cached next-track is kept
with no error surfaced, while with an empty cache the call reduces to
`loadAndStart`, whose label refresh recomputes the cache and can itself
raise a Playback Error dialog even though playback started. -/
theorem select_missing_path_behavior (s : JukeboxState) (p : String)
    (r : Nat) (now : ℚ) (loadOk : Bool)
    (hmiss : (activeList s).findIdx? (fun tr => tr.path = p) = none) :
    (play_track_by_path s p r now loadOk).1.current_track_list
        = some (activeList s)
    ∧ (play_track_by_path s p r now loadOk).1.current_track_index
        = s.current_track_index
    ∧ (play_track_by_path s p r now loadOk).1.current_track_duration
        = s.current_track_duration
    ∧ (loadOk = false →
        (play_track_by_path s p r now loadOk).1.stored_next_song
            = s.stored_next_song
        ∧ (play_track_by_path s p r now loadOk).1.play_start_time
            = s.play_start_time
        ∧ (play_track_by_path s p r now loadOk).1.play_offset = s.play_offset
        ∧ (play_track_by_path s p r now loadOk).2 = some "Playback Error")
    ∧ (loadOk = true →
        (play_track_by_path s p r now loadOk).1.play_start_time = some now
        ∧ (play_track_by_path s p r now loadOk).1.play_offset = 0)
    ∧ (loadOk = true → ∀ t, s.stored_next_song = some t →
        (play_track_by_path s p r now loadOk).1.stored_next_song = some t
        ∧ (play_track_by_path s p r now loadOk).2 = none)
    ∧ (loadOk = true →
        play_track_by_path s p r now loadOk
          = loadAndStart
              { s with current_track_list := some (activeList s) }
              now true r) := by
  obtain ⟨lib, cpl, ctl, cti, dur, sns, rm, pst, po, ud⟩ := s
  unfold play_track_by_path
  dsimp only
  rw [hmiss]
  have hl := loadAndStart_fields
    ⟨lib, cpl,
      some (activeList ⟨lib, cpl, ctl, cti, dur, sns, rm, pst, po, ud⟩),
      cti, dur, sns, rm, pst, po, ud⟩ now loadOk r
  exact ⟨hl.1, hl.2.1, hl.2.2.1, hl.2.2.2.1, hl.2.2.2.2.1, hl.2.2.2.2.2,
    by rintro rfl; rfl⟩

/-- C3 witness: the amended behaviour at the concrete session — the
active-list reference is reassigned to the playlist, the tracker restarts
at `now = 5`, and the already-cached next-track is kept with no error. -/
theorem select_missing_path_behavior_witness :
    c3Result.1.current_track_list = some [trackB]
    ∧ c3Result.1.current_track_index = c3State.current_track_index
    ∧ c3Result.1.stored_next_song = some trackB
    ∧ c3Result.1.play_start_time = some 5
    ∧ c3Result.2 = none := by
  have h := select_missing_path_behavior c3State "a.mp3" 0 5 true (by decide)
  have h6 := h.2.2.2.2.2.1 rfl trackB rfl
  exact ⟨h.1, h.2.1, h6.1, (h.2.2.2.2.1 rfl).1, h6.2⟩

end Jukebox
